import Mathlib

/-!
Verification of the enhancement-orchestration engine of the Pehance backend
(`backend/enhanced_agents.py` and `backend/agents_framework.py`).

The Python code is shallowly embedded: every definition below is translated
from the source file it names.  Upstream network calls are modelled by an
oracle (`Upstream`) supplying the text each call would return, and Python
exceptions are modelled with `Except`.  Python floats are modelled by `ℚ`
(all constants appearing in the source are decimal and exactly representable;
the binary-float rounding of CPython is not modelled, which is noted at the
few definitions where it could matter).
-/

/- ----------------------------------------------------------------- -/
/- Characters that the token rules make awkward to write literally.   -/
/- ----------------------------------------------------------------- -/

def braceOpen : Char := '\x7b'

def braceClose : Char := '\x7d'

/- ----------------------------------------------------------------- -/
/- JSON values, modelling what Python `json.loads` produces           -/
/- (dict / list / str / int / float / bool / None).                   -/
/- ----------------------------------------------------------------- -/

inductive Json where
  | null : Json
  | bool (b : Bool) : Json
  | num (q : ℚ) : Json
  | str (s : String) : Json
  | arr (elts : List Json) : Json
  | obj (fields : List (String × Json)) : Json
deriving Repr

/-- Python truthiness (`if json_data:` and `bool(...)`): `None`, `False`,
zero, empty string, empty list and empty dict are falsy. -/
def jTruthy : Json → Bool
  | .null => false
  | .bool b => b
  | .num q => decide (q ≠ 0)
  | .str s => decide (s ≠ "")
  | .arr l => !l.isEmpty
  | .obj l => !l.isEmpty

/-- `dict.get key default`.  `json.loads` lets a later duplicate key
overwrite an earlier one, so the last matching entry wins. -/
def jGetD (d : List (String × Json)) (key : String) (dflt : Json) : Json :=
  match d.foldl (fun acc p => if p.1 = key then some p.2 else acc) none with
  | some v => v
  | none => dflt

/- ----------------------------------------------------------------- -/
/- Executable rational arithmetic.  Batteries marks `Rat.add`,        -/
/- `Rat.mul`, ... `@[irreducible]`, which blocks `rfl`/`decide`       -/
/- evaluation on concrete inputs; the embedded code therefore         -/
/- computes with the `mkRat`-based equivalents below, and the bridge  -/
/- lemmas rewrite them to the standard operations inside proofs.      -/
/- ----------------------------------------------------------------- -/

def qadd (a b : ℚ) : ℚ := mkRat (a.num * b.den + b.num * a.den) (a.den * b.den)

def qmul (a b : ℚ) : ℚ := mkRat (a.num * b.num) (a.den * b.den)

def qneg (a : ℚ) : ℚ := mkRat (-a.num) a.den

def qdiv (a b : ℚ) : ℚ := Rat.divInt (a.num * b.den) ((a.den : ℤ) * b.num)

def qltB (a b : ℚ) : Bool := decide (a.num * (b.den : ℤ) < b.num * (a.den : ℤ))

def qleB (a b : ℚ) : Bool := decide (a.num * (b.den : ℤ) ≤ b.num * (a.den : ℤ))

def qmin (a b : ℚ) : ℚ := if qleB a b then a else b

def qmax (a b : ℚ) : ℚ := if qleB a b then b else a

/-- `10 ^ n` as an executable rational. -/
def qpow10 (n : Nat) : ℚ := mkRat ((10 : ℤ) ^ n) 1

theorem qadd_eq (a b : ℚ) : qadd a b = a + b := (Rat.add_def' a b).symm

theorem qmul_eq (a b : ℚ) : qmul a b = a * b := by
  unfold qmul
  conv_rhs => rw [← Rat.mkRat_self a, ← Rat.mkRat_self b]
  rw [Rat.mkRat_mul_mkRat]

theorem qneg_eq (a : ℚ) : qneg a = -a := by
  unfold qneg
  rw [Rat.mkRat_eq_divInt, ← Rat.neg_def]

theorem qdiv_eq (a b : ℚ) : qdiv a b = a / b := (Rat.div_def' a b).symm

theorem qltB_iff (a b : ℚ) : qltB a b = true ↔ a < b := by
  unfold qltB
  rw [decide_eq_true_iff]
  exact (Rat.lt_def).symm

theorem qleB_iff (a b : ℚ) : qleB a b = true ↔ a ≤ b := by
  unfold qleB
  rw [decide_eq_true_iff]
  exact (Rat.le_def).symm

theorem qmin_eq (a b : ℚ) : qmin a b = min a b := by
  unfold qmin
  by_cases h : a ≤ b
  · rw [if_pos ((qleB_iff a b).mpr h), min_eq_left h]
  · rw [if_neg (fun hc => h ((qleB_iff a b).mp hc)), min_eq_right (le_of_not_le h)]

theorem qmax_eq (a b : ℚ) : qmax a b = max a b := by
  unfold qmax
  by_cases h : a ≤ b
  · rw [if_pos ((qleB_iff a b).mpr h), max_eq_right h]
  · rw [if_neg (fun hc => h ((qleB_iff a b).mp hc)), max_eq_left (le_of_not_le h)]

theorem qpow10_eq (n : Nat) : qpow10 n = (10 : ℚ) ^ n := by
  unfold qpow10
  rw [Rat.mkRat_one]
  push_cast
  ring

/- ----------------------------------------------------------------- -/
/- Substring containment, modelling Python `needle in haystack`.      -/
/- ----------------------------------------------------------------- -/

def isSubAt : List Char → List Char → Bool
  | [], _ => true
  | _ :: _, [] => false
  | n :: ns, h :: hs => (n = h) && isSubAt ns hs

def containsSub : List Char → List Char → Bool
  | hay, needle =>
    match hay with
    | [] => needle.isEmpty
    | _ :: t => isSubAt needle hay || containsSub t needle

/-- Python `pat in hay` (substring test). -/
def strContains (hay pat : String) : Bool :=
  containsSub hay.toList pat.toList

/- ----------------------------------------------------------------- -/
/- A model of Python `json.loads` (fuel-based recursive descent).     -/
/- Faithful to the default decoder on the inputs this development     -/
/- exercises; `\uXXXX` escapes, `NaN`/`Infinity` literals and deep    -/
/- recursion-limit behaviour are not modelled (such inputs simply     -/
/- fail to parse here, and no theorem below depends on them).         -/
/- ----------------------------------------------------------------- -/

/-- JSON insignificant whitespace (exactly the four chars of the RFC,
which is also what Python's decoder skips). -/
def isJsonWs (c : Char) : Bool :=
  c = ' ' || c = '\t' || c = '\n' || c = '\r'

def skipWs : List Char → List Char
  | [] => []
  | c :: cs => if isJsonWs c then skipWs cs else c :: cs

/-- The JSON string-escape table (`\uXXXX` is not modelled). -/
def escTable : List (Char × Char) :=
  [('"', '"'), ('\\', '\\'), ('/', '/'), ('n', '\n'),
   ('t', '\t'), ('r', '\r'), ('b', '\x08'), ('f', '\x0c')]

/-- One string-escape character, looked up in `escTable`. -/
def escChar (e : Char) : Option Char :=
  (escTable.find? (fun pr => pr.1 = e)).map (fun pr => pr.2)

/-- Parse the body of a JSON string after the opening quote; the strict
decoder rejects raw control characters. -/
def parseStrChars : List Char → Option (List Char × List Char)
  | [] => none
  | '"' :: cs => some ([], cs)
  | '\\' :: e :: cs =>
    match escChar e with
    | none => none
    | some ec =>
      match parseStrChars cs with
      | none => none
      | some (r, rest) => some (ec :: r, rest)
  | '\\' :: [] => none
  | c :: cs =>
    if c.toNat < 32 then none
    else
      match parseStrChars cs with
      | none => none
      | some (r, rest) => some (c :: r, rest)

def natOfDigits (ds : List Char) : Nat :=
  ds.foldl (fun a c => a * 10 + (c.toNat - 48)) 0

def parseExpPart (q : ℚ) (r : List Char) : Option (ℚ × List Char) :=
  let (eneg, r1) :=
    match r with
    | '+' :: t => (false, t)
    | '-' :: t => (true, t)
    | _ => (false, r)
  let (es, r2) := r1.span (fun c => c.isDigit)
  if es.isEmpty then none
  else some (if eneg then qdiv q (qpow10 (natOfDigits es)) else qmul q (qpow10 (natOfDigits es)), r2)

/-- JSON number grammar: optional minus, integer part with no leading
zeros, optional fraction, optional exponent. -/
def parseNum (cs : List Char) : Option (Json × List Char) :=
  let (neg, cs1) :=
    match cs with
    | '-' :: r => (true, r)
    | _ => (false, cs)
  let (ds, cs2) := cs1.span (fun c => c.isDigit)
  if ds.isEmpty then none
  else if ds.length > 1 ∧ ds.head? = some '0' then none
  else
    let ip : ℚ := mkRat (natOfDigits ds : ℤ) 1
    let fracStep : Option (ℚ × List Char) :=
      match cs2 with
      | '.' :: r =>
        let (fs, r2) := r.span (fun c => c.isDigit)
        if fs.isEmpty then none
        else some (qadd ip (qdiv (mkRat (natOfDigits fs : ℤ) 1) (qpow10 fs.length)), r2)
      | _ => some (ip, cs2)
    match fracStep with
    | none => none
    | some (q1, cs3) =>
      let expStep : Option (ℚ × List Char) :=
        match cs3 with
        | 'e' :: r => parseExpPart q1 r
        | 'E' :: r => parseExpPart q1 r
        | _ => some (q1, cs3)
      match expStep with
      | none => none
      | some (q2, cs4) => some (.num (if neg then qneg q2 else q2), cs4)

/-- Parser mode: a plain value, the members of an object after `{`, or the
elements of an array after `[`. -/
inductive PMode where
  | val : PMode
  | members (acc : List (String × Json)) : PMode
  | elems (acc : List Json) : PMode

def pStep : Nat → PMode → List Char → Option (Json × List Char)
  | 0, _, _ => none
  | Nat.succ f, .val, cs =>
    match skipWs cs with
    | 'n' :: 'u' :: 'l' :: 'l' :: r => some (.null, r)
    | 't' :: 'r' :: 'u' :: 'e' :: r => some (.bool true, r)
    | 'f' :: 'a' :: 'l' :: 's' :: 'e' :: r => some (.bool false, r)
    | '"' :: r =>
      match parseStrChars r with
      | none => none
      | some (chars, rest) => some (.str (String.mk chars), rest)
    | '[' :: r =>
      match skipWs r with
      | ']' :: r2 => some (.arr [], r2)
      | _ => pStep f (.elems []) r
    | c :: r =>
      if c = braceOpen then
        match skipWs r with
        | d :: r2 => if d = braceClose then some (.obj [], r2) else pStep f (.members []) r
        | [] => none
      else if c = '-' ∨ c.isDigit then parseNum (c :: r)
      else none
    | [] => none
  | Nat.succ f, .members acc, cs =>
    match skipWs cs with
    | '"' :: r =>
      match parseStrChars r with
      | none => none
      | some (kcs, r2) =>
        match skipWs r2 with
        | ':' :: r3 =>
          match pStep f .val r3 with
          | none => none
          | some (v, r4) =>
            match skipWs r4 with
            | ',' :: r5 => pStep f (.members (acc ++ [(String.mk kcs, v)])) r5
            | d :: r5 =>
              if d = braceClose then some (.obj (acc ++ [(String.mk kcs, v)]), r5) else none
            | [] => none
        | _ => none
    | _ => none
  | Nat.succ f, .elems acc, cs =>
    match pStep f .val cs with
    | none => none
    | some (v, r) =>
      match skipWs r with
      | ',' :: r2 => pStep f (.elems (acc ++ [v])) r2
      | ']' :: r2 => some (.arr (acc ++ [v]), r2)
      | _ => none

/-- Model of `json.loads` on a character list: parse one value and require
only whitespace to remain.  `none` models a raised `JSONDecodeError`. -/
def jsonParseL (cs : List Char) : Option Json :=
  match pStep (2 * cs.length + 2) .val cs with
  | some (v, rest) => if (skipWs rest).isEmpty then some v else none
  | none => none

def jsonParse (s : String) : Option Json :=
  jsonParseL s.toList

/- ----------------------------------------------------------------- -/
/- Python string operations, on `List Char` (the byte-position based  -/
/- `String` functions of core Lean do not reduce in the kernel).      -/
/- Unicode refinements of `str.lower`/`str.strip` beyond ASCII and    -/
/- the common whitespace characters are not modelled.                 -/
/- ----------------------------------------------------------------- -/

def pyLower (cs : List Char) : List Char := cs.map Char.toLower

/-- The whitespace characters stripped by Python `str.strip()`. -/
def isPyWs (c : Char) : Bool :=
  c = ' ' || c = '\t' || c = '\n' || c = '\r' || c = '\x0b' || c = '\x0c'

def pyStrip (cs : List Char) : List Char :=
  ((cs.dropWhile isPyWs).reverse.dropWhile isPyWs).reverse

/-- Python `text.split(sep)` for a one-character separator (keeps empty
pieces, exactly like `str.split`). -/
def splitOnChar (sep : Char) : List Char → List (List Char)
  | [] => [[]]
  | x :: xs =>
    match splitOnChar sep xs with
    | [] => [[x]]
    | h :: t => if x = sep then [] :: h :: t else (x :: h) :: t

/-- Index of the first occurrence of a character (`str.find`, with `none`
for Python's `-1`). -/
def idxOf? (c : Char) : List Char → Option Nat
  | [] => none
  | x :: xs => if x = c then some 0 else (idxOf? c xs).map (· + 1)

/-- Index of the last occurrence of a character (`str.rfind`). -/
def lastIdxOf? (c : Char) (cs : List Char) : Option Nat :=
  (idxOf? c cs.reverse).map (fun i => cs.length - 1 - i)

example : jsonParse "5" = some (.num 5) := rfl
example : jsonParse " \x7b\"a\": 1, \"b\": [true, null]\x7d " =
    some (.obj [("a", .num 1), ("b", .arr [.bool true, .null])]) := rfl
example : jsonParse "\x7b\"x\": 0.45\x7d" = some (.obj [("x", .num (mkRat 9 20))]) := rfl
example : jsonParse "not json" = none := rfl
example : jsonParse "\x7b\"a\": 1\x7d trailing" = none := rfl

/- ----------------------------------------------------------------- -/
/- `IntentClassification` (pydantic model, enhanced_agents.py 239-250)-/
/- ----------------------------------------------------------------- -/

structure IntentClassification where
  intent_category : String
  confidence : ℚ
  specific_domain : Option String
  complexity_level : String
  requires_context : Bool
  input_complexity_score : ℚ
  enhancement_recommended : Bool
  suggested_action : String
  conversation_starter : Option String
  input_type : String
deriving Repr, DecidableEq

/- ----------------------------------------------------------------- -/
/- `parse_intent_json` (enhanced_agents.py 254-356).                  -/
/- ----------------------------------------------------------------- -/

/-- The Python exceptions that can escape `parse_intent_json` (its
`except` clause catches only `JSONDecodeError`, `ValueError` and
`KeyError`). -/
inductive PyFail where
  | attributeError : PyFail
  | typeError : PyFail
  | validationError : PyFail
deriving Repr, DecidableEq

/-- Outcome of evaluating the `IntentClassification(...)` constructor
call: success, an absorbed error (`ValueError`, caught by the `except`
clause, line 314), or an escaping error. -/
inductive BuildErr where
  | caughtValue : BuildErr
  | uncaughtType : BuildErr
  | pydanticReject : BuildErr
deriving Repr, DecidableEq

/-- Python `float(x)` restricted to a string argument: parses an optional
sign and decimal digits with an optional fraction (exponents, `inf`/`nan`
and digit underscores are not modelled; such strings simply fail here,
and no theorem depends on them). `none` models a raised `ValueError`. -/
def strToFloat? (cs : List Char) : Option ℚ :=
  let t := pyStrip cs
  let signSplit : Bool × List Char :=
    match t with
    | '-' :: r => (true, r)
    | '+' :: r => (false, r)
    | _ => (false, t)
  let neg := signSplit.1
  let t1 := signSplit.2
  let ds := t1.takeWhile (fun c => c.isDigit)
  let t2 := t1.dropWhile (fun c => c.isDigit)
  let fracSplit : List Char × List Char :=
    match t2 with
    | '.' :: r => (r.takeWhile (fun c => c.isDigit), r.dropWhile (fun c => c.isDigit))
    | _ => ([], t2)
  let fs := fracSplit.1
  let rest := fracSplit.2
  if ds.isEmpty ∧ fs.isEmpty then none
  else if !rest.isEmpty then none
  else
    let q := qadd (mkRat (natOfDigits ds : ℤ) 1) (qdiv (mkRat (natOfDigits fs : ℤ) 1) (qpow10 fs.length))
    some (if neg then qneg q else q)

/-- Python `float(x)` on a JSON value: numbers and booleans convert, a
numeric string converts, a non-numeric string raises `ValueError`
(caught), and `None`/lists/dicts raise `TypeError` (not caught). -/
def pyFloatJ : Json → Except BuildErr ℚ
  | .num q => .ok q
  | .bool b => .ok (if b then 1 else 0)
  | .str s =>
    match strToFloat? s.data with
    | some q => .ok q
    | none => .error .caughtValue
  | _ => .error .uncaughtType

/-- pydantic validation of a `str` field.  A non-string value is modelled
as rejected (pydantic v2 behaviour; v1 would coerce some numerics — no
theorem below exercises this branch). -/
def pyStrJ : Json → Except BuildErr String
  | .str s => .ok s
  | _ => .error .pydanticReject

/-- pydantic validation of an `Optional[str]` field. -/
def pyOptStrJ : Json → Except BuildErr (Option String)
  | .null => .ok none
  | .str s => .ok (some s)
  | _ => .error .pydanticReject

/-- The `IntentClassification(...)` construction on lines 301-312:
`float(...)`/`bool(...)` conversions happen in argument order, then
pydantic validates the remaining fields. -/
def buildClassification (d : List (String × Json)) : Except BuildErr IntentClassification :=
  match pyFloatJ (jGetD d "confidence" (.num (mkRat 1 2))) with
  | .error e => .error e
  | .ok conf =>
  match pyFloatJ (jGetD d "input_complexity_score" (.num (mkRat 1 2))) with
  | .error e => .error e
  | .ok score =>
  match pyStrJ (jGetD d "intent_category" (.str "other")) with
  | .error e => .error e
  | .ok cat =>
  match pyOptStrJ (jGetD d "specific_domain" .null) with
  | .error e => .error e
  | .ok dom =>
  match pyStrJ (jGetD d "complexity_level" (.str "basic")) with
  | .error e => .error e
  | .ok lvl =>
  match pyStrJ (jGetD d "suggested_action" (.str "standard_enhancement")) with
  | .error e => .error e
  | .ok act =>
  match pyOptStrJ (jGetD d "conversation_starter" .null) with
  | .error e => .error e
  | .ok starter =>
  match pyStrJ (jGetD d "input_type" (.str "minimal")) with
  | .error e => .error e
  | .ok ity =>
  .ok {
    intent_category := cat
    confidence := conf
    specific_domain := dom
    complexity_level := lvl
    requires_context := jTruthy (jGetD d "requires_context" (.bool true))
    input_complexity_score := score
    enhancement_recommended := jTruthy (jGetD d "enhancement_recommended" (.bool true))
    suggested_action := act
    conversation_starter := starter
    input_type := ity }

/-- Lines 256-265: strip, remove a leading ` ```json ` fence and a
trailing ` ``` ` fence, strip again.  The heuristic fallback and all
three extraction methods operate on this preprocessed text. -/
def preprocessText (s : String) : List Char :=
  let t := pyStrip s.data
  let t := if List.isPrefixOf "```json".data t then t.drop 7 else t
  let t := if List.isSuffixOf "```".data t then t.take (t.length - 3) else t
  pyStrip t

/-- A parse result of `None` (`json.loads("null")`) leaves the Python
variable `json_data` equal to `None`, so the next extraction method still
runs; this helper encodes that. -/
def stripNull : Option Json → Option Json
  | some .null => none
  | x => x

/-- Method 2 (lines 277-286): take the substring from the first `{` to the
last `}` and try to parse it. -/
def method2 (cs : List Char) : Option Json :=
  match idxOf? braceOpen cs, lastIdxOf? braceClose cs with
  | some i, some j => if i ≤ j then jsonParseL ((cs.drop i).take (j + 1 - i)) else none
  | _, _ => none

def firstSome : List (Option Json) → Option Json
  | [] => none
  | o :: os =>
    match o with
    | some v => some v
    | none => firstSome os

/-- Method 3 (lines 289-297): scan the lines for one that is itself a
complete JSON object. -/
def method3 (cs : List Char) : Option Json :=
  firstSome ((splitOnChar '\n' cs).map (fun ln =>
    let l := pyStrip ln
    if l.head? = some braceOpen && l.getLast? = some braceClose then jsonParseL l else none))

/-- The three extraction strategies of lines 268-297, first success wins
(a later method only runs while `json_data` is still `None`). -/
def recoverJson (cs : List Char) : Option Json :=
  match stripNull (jsonParseL cs) with
  | some v => some v
  | none =>
    match stripNull (method2 cs) with
    | some v => some v
    | none => stripNull (method3 cs)

/-- The deterministic heuristic fallback (lines 318-356), applied to the
preprocessed text. -/
def heuristicCls (cs : List Char) : IntentClassification :=
  let text_lower := pyLower cs
  let hit := fun (ws : List String) => ws.any (fun w => containsSub text_lower w.data)
  let triple : String × ℚ × ℚ :=
    if hit ["hello", "hi", "hey", "greetings"] then ("greeting", mkRat 1 10, mkRat 4 5)
    else if hit ["write", "story", "creative", "art", "design"] then ("creative", mkRat 2 5, mkRat 7 10)
    else if hit ["code", "api", "program", "develop", "software", "technical"] then
      ("technical", mkRat 3 5, mkRat 7 10)
    else if hit ["business", "strategy", "marketing", "startup", "company"] then
      ("business", mkRat 3 5, mkRat 7 10)
    else ("other", mkRat 1 2, mkRat 3 10)
  let cat := triple.1
  let cs' := triple.2.1
  let conf := triple.2.2
  { intent_category := cat
    confidence := conf
    specific_domain := none
    complexity_level := if qltB cs' (mkRat 2 5) then "basic" else "intermediate"
    requires_context := qltB (mkRat 1 2) cs'
    input_complexity_score := cs'
    enhancement_recommended := qltB (mkRat 1 5) cs'
    suggested_action := if qltB cs' (mkRat 3 10) then "request_clarification" else "basic_enhancement"
    conversation_starter :=
      if qltB cs' (mkRat 3 10) then
        some "I'd be happy to help! Could you provide more details about what you'd like me to help you with?"
      else none
    input_type :=
      if cat = "greeting" then "greeting"
      else if qltB cs' (mkRat 1 2) then "minimal" else "substantial" }

/-- Lines 299-317 and the fall-through to the heuristic: dispatch on the
recovered JSON value (`heur` is the heuristic classification of the
preprocessed text, used wherever the Python code falls through to the
fallback of lines 318-356). -/
def parseRecovered : Option Json → IntentClassification → Except PyFail IntentClassification
  | none, heur => .ok heur
  | some v, heur =>
    if jTruthy v then
      match v with
      | .obj d =>
        match buildClassification d with
        | .ok c => .ok c
        | .error .caughtValue => .ok heur
        | .error .uncaughtType => .error .typeError
        | .error .pydanticReject => .error .validationError
      | _ => .error .attributeError
    else .ok heur

/-- `parse_intent_json` (lines 254-356).  `.ok` is a returned
classification; `.error` models an escaping Python exception: a truthy
non-dict JSON value reaches `json_data.get(...)` and raises
`AttributeError`, and some field conversions raise uncaught errors. -/
def parse_intent_json (s : String) : Except PyFail IntentClassification :=
  parseRecovered (recoverJson (preprocessText s)) (heuristicCls (preprocessText s))

example : parse_intent_json "5" = .error .attributeError := rfl
example : parse_intent_json "[1, 2]" = .error .attributeError := rfl
example : (parse_intent_json "code").map (fun (c : IntentClassification) => (c.input_complexity_score, c.suggested_action)) =
    .ok (mkRat 3 5, "basic_enhancement") := rfl
example : (parse_intent_json "\x7b\"input_complexity_score\": 2.5\x7d").map
    (fun (c : IntentClassification) => c.input_complexity_score) = .ok (mkRat 5 2) := rfl
example : (parse_intent_json "hi").map (fun (c : IntentClassification) => (c.intent_category, c.input_type, c.suggested_action)) =
    .ok ("greeting", "greeting", "request_clarification") := rfl

/- ----------------------------------------------------------------- -/
/- SafetyGuardrail (enhanced_agents.py 360-494).                      -/
/- ----------------------------------------------------------------- -/

/-- The fields of the `GuardrailFunctionOutput.output_info` dict that the
claims are about, plus the computed `tripwire_triggered` flag.  The basic
keyword fallback emits no `recommendation` key at all (`none` here). -/
structure GuardrailOut where
  flagged : Json
  recommendation : Option Json
  tripwire : Bool
  used_fallback : Bool
deriving Repr

/-- `basic_safety_guardrail` (lines 482-494): a static keyword blocklist
over the lower-cased user input; `tripwire_triggered = is_flagged`. -/
def basic_safety_guardrail (input_data : String) : GuardrailOut :=
  let lower := pyLower input_data.data
  let flag := ["hack", "illegal", "harmful", "violence", "exploit", "bypass", "jailbreak"].any
    (fun w => containsSub lower w.data)
  { flagged := .bool flag
    recommendation := none
    tripwire := flag
    used_fallback := true }

/-- The safety-JSON extraction of lines 431-448: strip fences, then parse
the first-`{`-to-last-`}` substring when such boundaries exist, otherwise
the whole text.  Any parse failure, and any non-dict result (whose
`.get` raises `AttributeError` into the outer `except Exception`), sends
the guardrail to the keyword fallback (`none` here). -/
def parseSafetyObj (resp : String) : Option (List (String × Json)) :=
  let cs := preprocessText resp
  let parsed : Option Json :=
    match idxOf? braceOpen cs, lastIdxOf? braceClose cs with
    | some i, some j => if i ≤ j then jsonParseL ((cs.drop i).take (j + 1 - i)) else jsonParseL cs
    | _, _ => jsonParseL cs
  match parsed with
  | some (.obj d) => some d
  | _ => none

/-- `enhanced_safety_guardrail` (lines 360-480), as a function of the text
returned by the safety model and of the user input.  On a parsed dict:
`tripwire_triggered = is_flagged and recommendation == "block"` (line
471); on any failure: `basic_safety_guardrail`. -/
def enhanced_safety_guardrail (safetyResp : String) (input_data : String) : GuardrailOut :=
  match parseSafetyObj safetyResp with
  | some d =>
    let fl := jGetD d "flagged" (.bool false)
    let recV := jGetD d "recommendation" (.str "allow")
    { flagged := fl
      recommendation := some recV
      tripwire := jTruthy fl && (match recV with | .str s => s = "block" | _ => false)
      used_fallback := false }
  | none => basic_safety_guardrail input_data

example : (enhanced_safety_guardrail "I cannot analyze this." "how to hack a server").tripwire = true := rfl
example : (enhanced_safety_guardrail "I cannot analyze this." "how to hack a server").recommendation = none := rfl
example : (enhanced_safety_guardrail
    "\x7b\"flagged\": true, \"recommendation\": \"review\"\x7d" "anything").tripwire = false := rfl
example : (enhanced_safety_guardrail
    "\x7b\"flagged\": true, \"recommendation\": \"block\"\x7d" "anything").tripwire = true := rfl

/- ----------------------------------------------------------------- -/
/- `create_enhanced_greeting_response` (enhanced_agents.py 1321-1384).-/
/- ----------------------------------------------------------------- -/

def greetHi : String := "Hello! 👋 I'm your AI prompt enhancement specialist. I transform simple ideas into powerful, precise prompts that unlock exceptional AI performance. Whether you're looking to create compelling content, solve technical challenges, or craft business strategies, I'm here to help you get remarkable results. What exciting project can we work on together?"

def greetHello : String := "Hello there! 🌟 Welcome to precision prompt engineering! I specialize in taking your creative sparks and turning them into crystal-clear, actionable prompts that deliver outstanding AI responses. From storytelling and coding to business planning and research, I can help enhance any request. What would you like to explore today?"

def greetHey : String := "Hey! 🚀 Ready to supercharge your AI interactions? I'm here to transform your ideas into perfectly crafted prompts that get incredible results. Whether you're writing, coding, strategizing, or creating something entirely new, I'll help you communicate with AI in the most effective way possible. What's sparking your imagination?"

def greetMorning : String := "Good morning! ☀️ What a perfect time to start creating something amazing! I'm your prompt enhancement specialist, ready to help you craft clear, compelling instructions that unlock AI's full potential. Whether you're tackling creative projects, technical challenges, or business goals, let's make today productive. What's first on your agenda?"

def greetAfternoon : String := "Good afternoon! ⚡ Perfect timing to boost your productivity with some expert prompt engineering! I help transform any idea or request into a precision-crafted prompt that delivers exceptional AI results. From creative writing and technical solutions to business strategies and research, I'm here to help you achieve your goals. What exciting challenge can we tackle together?"

def greetEvening : String := "Good evening! 🌙 Let's make your evening productive and inspiring! I specialize in enhancing prompts to help you get the absolute best from AI systems. Whether you're working on creative projects, solving technical puzzles, planning for tomorrow, or exploring new ideas, I'm here to help you communicate more effectively with AI. What would you like to create tonight?"

def greetHowdy : String := "Howdy! 🤠 Great to meet you! I'm your friendly prompt enhancement expert, here to help you get extraordinary results from AI. I take your ideas and transform them into clear, powerful prompts that deliver exactly what you need. Ready to turn your next request into something special? What are you working on?"

def greetGreetings : String := "Greetings! 🎯 I'm delighted to help you master the art of AI communication! As your prompt enhancement specialist, I transform everyday requests into precision-engineered prompts that unlock remarkable AI capabilities. Whether you're creating, analyzing, building, or exploring, I'm here to help you achieve exceptional results. What inspiring project shall we enhance together?"

/-- The `greeting_templates` dict (lines 1325-1341). -/
def greetingTemplates : List (String × String) :=
  [("hi", greetHi), ("hello", greetHello), ("hey", greetHey),
   ("good morning", greetMorning), ("good afternoon", greetAfternoon),
   ("good evening", greetEvening), ("howdy", greetHowdy), ("greetings", greetGreetings)]

def greetNextSteps : String := "\n\n💡 **Quick Start Ideas:**\n• Share a creative writing project you'd like help with\n• Describe a technical problem you're trying to solve\n• Tell me about a business challenge you're facing\n• Ask me to enhance any existing prompt you have"

/-- The time-of-day sentence (lines 1343-1355); `hour` stands for
`datetime.datetime.now().hour`, which only influences the fallback
branch. -/
def timeContext (hour : Nat) : String :=
  if 5 ≤ hour ∧ hour < 12 then " Let's start your day with some powerful AI enhancement!"
  else if 12 ≤ hour ∧ hour < 17 then " Perfect afternoon energy for creating something amazing!"
  else if 17 ≤ hour ∧ hour < 21 then " Great evening vibes for productive creativity!"
  else " Even late hours are perfect for inspired work!"

def greetFallback (hour : Nat) : String :=
  "Hello! 🌟 I'm your AI prompt enhancement specialist, ready to help you create powerful, effective prompts that get exceptional results. Whether you're working on creative projects, technical solutions, business strategies, or anything else, I can help transform your ideas into precision-crafted instructions."
    ++ timeContext hour ++ " What would you like to work on?"

/-- `create_enhanced_greeting_response` (lines 1321-1384).  The
`intent_data` parameter is unused in the source body as well. -/
def create_enhanced_greeting_response (hour : Nat) (user_prompt : String)
    (_intent_data : IntentClassification) : String :=
  let pl := pyStrip (pyLower user_prompt.data)
  let plS := String.mk pl
  let base :=
    match List.lookup plS greetingTemplates with
    | some t => t
    | none =>
      if containsSub pl "morning".data || containsSub pl "afternoon".data
          || containsSub pl "evening".data then
        if containsSub pl "morning".data then greetMorning
        else if containsSub pl "afternoon".data then greetAfternoon
        else greetEvening
      else if containsSub pl "hi".data || containsSub pl "hello".data
          || containsSub pl "hey".data || containsSub pl "howdy".data then
        if containsSub pl "hi".data then greetHi
        else if containsSub pl "hello".data then greetHello
        else if containsSub pl "hey".data then greetHey
        else greetHowdy
      else greetFallback hour
  base ++ greetNextSteps

/- ----------------------------------------------------------------- -/
/- The simplified agents framework (agents_framework.py).             -/
/- ----------------------------------------------------------------- -/

/-- Outcome of one upstream chat-completion call: the returned text, or a
raised exception with its message (`str(e)`). -/
inductive ApiOutcome where
  | ok (text : String) : ApiOutcome
  | exn (msg : String) : ApiOutcome
deriving Repr, DecidableEq

/-- `AgentResult` (agents_framework.py 40-43). -/
structure AgentResult where
  final_output : String
  success : Bool
deriving Repr, DecidableEq

namespace Runner

/-- `Runner.run` (agents_framework.py 79-89): any exception from
`agent.process` other than the guardrail tripwire is caught and turned
into `AgentResult(final_output=f"Error: {str(e)}", success=False)`.  The
tripwire exception is handled separately in `orchestrate_enhancement`
below (it is re-raised, line 88). -/
def run : ApiOutcome → AgentResult
  | .ok t => { final_output := t, success := true }
  | .exn m => { final_output := "Error: " ++ m, success := false }

end Runner

/- ----------------------------------------------------------------- -/
/- Python `round(x, 1)` and `len`.                                    -/
/- ----------------------------------------------------------------- -/

/-- Round-half-to-even on ℚ (Python `round` on exact values; the
binary-float artifacts of CPython's `round(float, 1)` are not modelled —
for ratios of small integer lengths the values agree). -/
def rhalfEven (q : ℚ) : ℤ :=
  let f := q.floor
  let r := qadd q (qneg (mkRat f 1))
  if qltB r (mkRat 1 2) then f
  else if qltB (mkRat 1 2) r then f + 1
  else if f % 2 = 0 then f else f + 1

/-- Python `round(q, 1)`. -/
def round1 (q : ℚ) : ℚ := qdiv (mkRat (rhalfEven (qmul (mkRat 10 1) q)) 1) (mkRat 10 1)

/-- Python `len` on a string (number of characters). -/
def pyLen (s : String) : Nat := s.data.length

example : round1 (qdiv (mkRat 7 1) (mkRat 3 1)) = mkRat 23 10 := rfl
example : round1 (mkRat 1 4) = mkRat 1 5 := rfl

/- ----------------------------------------------------------------- -/
/- `orchestrate_enhancement` (enhanced_agents.py 1073-1318).          -/
/- ----------------------------------------------------------------- -/

/-- The oracle for one orchestration run: the model name that
`select_model_for_task` yields for each stage, the outcome of each
stage's upstream call, and the wall-clock hour (used only by the
greeting templates). -/
structure Upstream where
  classifierModel : String
  classifierApi : ApiOutcome
  contextModel : String
  contextApi : ApiOutcome
  methodologyModel : String
  methodologyApi : ApiOutcome
  enhancementModel : String
  enhancerApi : ApiOutcome
  basicModel : String
  basicApi : ApiOutcome
  safetyApi : ApiOutcome
  hour : Nat
deriving Repr

/-- Where the mode-aware routing of Step 2 sends a classification. -/
inductive Route where
  | greetingRoute (c : IntentClassification) : Route
  | clarificationRoute (c : IntentClassification) : Route
  | pipeline (c : IntentClassification) : Route
deriving Repr, DecidableEq

/-- The Step-3 upgrade (lines 1163-1168): in single mode a
`basic_enhancement` for a meaningful technical/creative/business request
is upgraded to `standard_enhancement` with the score floored at 0.5. -/
def step3Upgrade (mode : String) (c : IntentClassification) : IntentClassification :=
  if mode = "single" ∧ c.suggested_action = "basic_enhancement" then
    if qleB (mkRat 3 10) c.input_complexity_score ∧
        (c.intent_category = "technical" ∨ c.intent_category = "creative" ∨
          c.intent_category = "business") then
      { c with suggested_action := "standard_enhancement",
               input_complexity_score := qmax (mkRat 1 2) c.input_complexity_score }
    else c
  else c

/-- Step 2, the mode-aware enhancement routing (lines 1102-1168),
including the in-place mutations of `intent_data`. -/
def routeMode (mode : String) (c : IntentClassification) : Route :=
  if mode = "single" then
    if c.suggested_action = "request_clarification" then
      if c.input_type = "greeting" then .greetingRoute c
      else
        .pipeline (step3Upgrade mode
          { c with suggested_action := "standard_enhancement",
                   input_complexity_score :=
                     if qltB c.input_complexity_score (mkRat 1 2) then mkRat 1 2
                     else c.input_complexity_score })
    else if c.suggested_action = "basic_enhancement" ∧ qltB c.input_complexity_score (mkRat 2 5) then
      .pipeline (step3Upgrade mode
        { c with suggested_action := "standard_enhancement",
                 input_complexity_score := qmax (mkRat 1 2) c.input_complexity_score })
    else .pipeline (step3Upgrade mode c)
  else if mode = "multi" ∧ c.suggested_action = "request_clarification" then
    .clarificationRoute c
  else .pipeline (step3Upgrade mode c)

/-- How an orchestration run can fail: the safety tripwire exception, or
a Python exception escaping `parse_intent_json`. -/
inductive OrchFail where
  | tripwire : OrchFail
  | pyRaise (e : PyFail) : OrchFail
deriving Repr, DecidableEq

/-- The result dict of `orchestrate_enhancement`.  `enhancement_ratio_q`
is the dict key `"enhancement_ratio"`, `methodology_4d_applied` the key
`"4d_methodology_applied"`.  `model_used`/`models_used` are `none` when
the corresponding dict key is absent on that return path.  `callsMade`
records which upstream generation calls were actually issued (the
model's trace of side effects). -/
structure OrchResult where
  enhanced_prompt : String
  intent_analysis : IntentClassification
  enhancement_type : String
  supporting_context_length : Nat
  methodology_guidance_length : Nat
  domain_research_performed : Bool
  methodology_4d_applied : Bool
  process_steps : List String
  enhancement_ratio_q : ℚ
  complexity_score : ℚ
  model_used : Option String
  models_used : Option (List (String × Option String))
  mode : String
  callsMade : List String
deriving Repr

/-- The fallback clarification text of lines 1144-1145. -/
def defaultClarification : String := "I'd be happy to help enhance your prompt! Could you share more details about what you'd like to create or improve? The more specific you are, the better I can tailor the enhancement to your needs."

/-- Line 1144: `intent_data.conversation_starter or "..."` (Python `or`
falls through on a falsy — absent or empty — starter). -/
def clarificationText (c : IntentClassification) : String :=
  match c.conversation_starter with
  | some s => if s = "" then defaultClarification else s
  | none => defaultClarification

/-- The per-route result construction of `orchestrate_enhancement`
(the four `return {...}` dicts of lines 1111-1318). -/
def orchRoute (u : Upstream) (user_prompt : String) (mode : String) :
    Route → Except OrchFail OrchResult
  | .greetingRoute c =>
    .ok {
      enhanced_prompt := create_enhanced_greeting_response u.hour user_prompt c
      intent_analysis := c
      enhancement_type := "enhanced_greeting"
      supporting_context_length := 0
      methodology_guidance_length := 0
      domain_research_performed := false
      methodology_4d_applied := true
      process_steps := ["intent_classification", "single_mode_greeting_enhancement"]
      enhancement_ratio_q := round1 (qdiv
        (mkRat (pyLen (create_enhanced_greeting_response u.hour user_prompt c) : ℤ) 1)
        (mkRat (pyLen user_prompt : ℤ) 1))
      complexity_score := c.input_complexity_score
      model_used := some "greeting_template"
      models_used := none
      mode := mode
      callsMade := ["intent_classification"] }
  | .clarificationRoute c =>
    .ok {
      enhanced_prompt := clarificationText c
      intent_analysis := c
      enhancement_type := "clarification_request"
      supporting_context_length := 0
      methodology_guidance_length := 0
      domain_research_performed := false
      methodology_4d_applied := true
      process_steps := ["intent_classification", "clarification_routing"]
      enhancement_ratio_q := round1 (qdiv (mkRat (pyLen (clarificationText c) : ℤ) 1)
        (mkRat (pyLen user_prompt : ℤ) 1))
      complexity_score := c.input_complexity_score
      model_used := none
      models_used := none
      mode := mode
      callsMade := ["intent_classification"] }
  | .pipeline c =>
    if c.suggested_action = "basic_enhancement" then
      .ok {
        enhanced_prompt := (Runner.run u.basicApi).final_output
        intent_analysis := c
        enhancement_type := "basic_enhancement"
        supporting_context_length := 0
        methodology_guidance_length := 0
        domain_research_performed := false
        methodology_4d_applied := true
        process_steps := ["intent_classification", "basic_enhancement"]
        enhancement_ratio_q := round1 (qdiv
          (mkRat (pyLen (Runner.run u.basicApi).final_output : ℤ) 1)
          (mkRat (pyLen user_prompt : ℤ) 1))
        complexity_score := c.input_complexity_score
        model_used := some u.basicModel
        models_used := none
        mode := mode
        callsMade := ["intent_classification", "basic_enhancement"] }
    else
      if (enhanced_safety_guardrail (Runner.run u.safetyApi).final_output user_prompt).tripwire then
        .error .tripwire
      else
        .ok {
          enhanced_prompt := (Runner.run u.enhancerApi).final_output
          intent_analysis := c
          enhancement_type := c.suggested_action
          supporting_context_length :=
            if c.requires_context && qltB (mkRat 2 5) c.input_complexity_score then
              pyLen (Runner.run u.contextApi).final_output else 0
          methodology_guidance_length :=
            if qltB (mkRat 1 2) c.input_complexity_score then
              pyLen (Runner.run u.methodologyApi).final_output else 0
          domain_research_performed :=
            c.requires_context && qltB (mkRat 2 5) c.input_complexity_score
          methodology_4d_applied := qltB (mkRat 1 2) c.input_complexity_score
          process_steps := ["intent_classification"]
            ++ (if c.requires_context && qltB (mkRat 2 5) c.input_complexity_score then
                ["domain_context_research"] else [])
            ++ (if qltB (mkRat 1 2) c.input_complexity_score then
                ["4d_methodology_application"] else [])
            ++ ["proportional_prompt_optimization"]
          enhancement_ratio_q := round1 (qdiv
            (mkRat (pyLen (Runner.run u.enhancerApi).final_output : ℤ) 1)
            (mkRat (pyLen user_prompt : ℤ) 1))
          complexity_score := c.input_complexity_score
          model_used := none
          models_used := some [("classification", some u.classifierModel),
            ("context", if c.requires_context && qltB (mkRat 2 5) c.input_complexity_score then
              some u.contextModel else none),
            ("methodology", if qltB (mkRat 1 2) c.input_complexity_score then
              some u.methodologyModel else none),
            ("enhancement", some u.enhancementModel)]
          mode := mode
          callsMade := ["intent_classification"]
            ++ (if c.requires_context && qltB (mkRat 2 5) c.input_complexity_score then
                ["context_gathering"] else [])
            ++ (if qltB (mkRat 1 2) c.input_complexity_score then ["methodology"] else [])
            ++ ["safety_check", "enhancement"] }

/-- `orchestrate_enhancement` (lines 1073-1318).  Each upstream stage call
goes through `rate_limited_request(Runner.run, ...)`; since `Runner.run`
converts every exception except the tripwire into an `AgentResult`,
`rate_limited_request` never observes an exception there and the
composition reduces to `Runner.run` (the tripwire message matches no
rate-limit signature and is re-raised unchanged). -/
def orchestrate_enhancement (u : Upstream) (user_prompt : String) (mode : String) :
    Except OrchFail OrchResult :=
  match parse_intent_json (Runner.run u.classifierApi).final_output with
  | .error e => .error (.pyRaise e)
  | .ok c0 => orchRoute u user_prompt mode (routeMode mode c0)

/- ----------------------------------------------------------------- -/
/- `RateLimitConfig` and `rate_limited_request`                       -/
/- (enhanced_agents.py 195-235).                                      -/
/- ----------------------------------------------------------------- -/

structure RateLimitConfig where
  maxRetries : Nat
  baseDelay : ℚ
  maxDelay : ℚ
  backoffMultiplier : ℚ
  jitterRange : ℚ
deriving Repr, DecidableEq

/-- The constants of the source `RateLimitConfig` class (lines 195-201). -/
def sourceRateLimitConfig : RateLimitConfig :=
  { maxRetries := 3, baseDelay := 1, maxDelay := 30,
    backoffMultiplier := 2, jitterRange := mkRat 1 10 }

/-- Line 215: the transient-rate-limit signature, a case-insensitive
substring match on the error text. -/
def isRateLimitError (msg : String) : Bool :=
  let s := pyLower msg.data
  containsSub s "rate limit".data || containsSub s "too many requests".data
    || containsSub s "429".data

/-- The `for attempt in range(MAX_RETRIES + 1)` loop of lines 207-232.
`f i` is the outcome of attempt `i` (`.error m` = exception with message
`m`); `jit i` is the jitter sampled before sleep `i`.  The result pairs
the returned value (or, for `.error`, the re-raised exception: `some m`,
with `none` for the unreachable fall-through of line 235) with the list
of sleep durations in order. -/
def rlAux {V : Type} (cfg : RateLimitConfig) (f : Nat → Except String V) (jit : Nat → ℚ) :
    Nat → Nat → ℚ → List ℚ → Except (Option String) V × List ℚ
  | _, 0, _, sleeps => (.error none, sleeps)
  | i, Nat.succ fuel, delay, sleeps =>
    match f i with
    | .ok v => (.ok v, sleeps)
    | .error m =>
      if isRateLimitError m then
        if i < cfg.maxRetries then
          rlAux cfg f jit (i + 1) fuel (qmul delay cfg.backoffMultiplier)
            (sleeps ++ [qmin (qmul delay (qadd 1 (jit i))) cfg.maxDelay])
        else (.error (some m), sleeps)
      else (.error (some m), sleeps)

/-- `rate_limited_request` (lines 203-235). -/
def rate_limited_request {V : Type} (cfg : RateLimitConfig) (f : Nat → Except String V)
    (jit : Nat → ℚ) : Except (Option String) V × List ℚ :=
  rlAux cfg f jit 0 (cfg.maxRetries + 1) cfg.baseDelay []

example :
    rate_limited_request sourceRateLimitConfig
      (fun i => if i < 2 then .error "429 Too Many Requests" else .ok (42 : Nat))
      (fun _ => 0) =
    (.ok 42, [qmin (qmul 1 (qadd 1 0)) 30, qmin (qmul (qmul 1 2) (qadd 1 0)) 30]) := rfl

example :
    rate_limited_request sourceRateLimitConfig
      (fun _ => .error "invalid api key") (fun _ => 0) =
    ((.error (some "invalid api key") : Except (Option String) Nat), []) := rfl

/- ================================================================= -/
/- Claims                                                             -/
/- ================================================================= -/

/-- C1 (counterexample).  On the keyword-blocklist fallback path the
pipeline aborts although no `recommendation` of `"block"` exists: for a
safety response that is not JSON and an input containing `"hack"`, the
guardrail trips while its output carries no recommendation at all — so
"aborts iff `flagged ∧ recommendation == "block"`, on both paths" is
false on the fallback path. -/
theorem c1_counterexample :
    (enhanced_safety_guardrail "I cannot analyze this." "how to hack a server").tripwire = true
    ∧ (enhanced_safety_guardrail "I cannot analyze this." "how to hack a server").recommendation
        = none
    ∧ (none : Option Json) ≠ some (Json.str "block") := by
  refine ⟨rfl, rfl, ?_⟩
  intro h
  cases h

/-- C1 (amended).  The tripwire fires iff either the safety response
parses to a dict whose `flagged` value is truthy and whose
`recommendation` equals `"block"` (the model path, line 471), or the
response does not parse to a dict and the lower-cased user input contains
a blocklist keyword (the fallback path, line 493, which ignores
recommendations entirely). -/
theorem c1_tripwire_rule (resp inp : String) :
    (enhanced_safety_guardrail resp inp).tripwire = true ↔
      ((∃ d, parseSafetyObj resp = some d
          ∧ jTruthy (jGetD d "flagged" (.bool false)) = true
          ∧ jGetD d "recommendation" (.str "allow") = Json.str "block")
        ∨ (parseSafetyObj resp = none ∧ (basic_safety_guardrail inp).tripwire = true)) := by
  cases h : parseSafetyObj resp with
  | some d =>
    simp only [enhanced_safety_guardrail, h]
    constructor
    · intro ht
      rw [Bool.and_eq_true] at ht
      refine Or.inl ⟨d, rfl, ht.1, ?_⟩
      rcases hv : jGetD d "recommendation" (Json.str "allow") with _ | _ | _ | s | _ | _ <;>
        rw [hv] at ht <;> simp_all
    · rintro (⟨d', hd', hfl, hrec⟩ | ⟨hnone, _⟩)
      · injection hd' with hdd
        subst hdd
        rw [hfl, hrec]
        simp
      · cases hnone
  | none =>
    simp only [enhanced_safety_guardrail, h]
    constructor
    · intro ht
      exact Or.inr ⟨trivial, ht⟩
    · rintro (⟨d', hd', _, _⟩ | ⟨_, hb⟩)
      · cases hd'
      · exact hb

/- Helper lemmas about the mode-aware routing. -/

theorem step3Upgrade_action (mode : String) (c : IntentClassification) :
    (step3Upgrade mode c).suggested_action = c.suggested_action ∨
      (step3Upgrade mode c).suggested_action = "standard_enhancement" := by
  unfold step3Upgrade
  split_ifs <;> simp

theorem step3Upgrade_of_not_basic (mode : String) (c : IntentClassification)
    (h : c.suggested_action ≠ "basic_enhancement") : step3Upgrade mode c = c := by
  unfold step3Upgrade
  rw [if_neg (fun hc => h hc.2)]

theorem routeMode_single_not_clarification (c c' : IntentClassification) :
    routeMode "single" c ≠ .clarificationRoute c' := by
  unfold routeMode
  rw [if_pos rfl]
  by_cases h1 : c.suggested_action = "request_clarification"
  · rw [if_pos h1]
    by_cases h2 : c.input_type = "greeting"
    · rw [if_pos h2]
      intro h
      cases h
    · rw [if_neg h2]
      intro h
      cases h
  · rw [if_neg h1]
    by_cases h2 : c.suggested_action = "basic_enhancement" ∧
        qltB c.input_complexity_score (mkRat 2 5) = true
    · rw [if_pos h2]
      intro h
      cases h
    · rw [if_neg h2]
      intro h
      cases h

theorem routeMode_single_pipeline_action (c c' : IntentClassification)
    (h : routeMode "single" c = .pipeline c') :
    c'.suggested_action ≠ "request_clarification" := by
  unfold routeMode at h
  rw [if_pos rfl] at h
  by_cases h1 : c.suggested_action = "request_clarification"
  · rw [if_pos h1] at h
    by_cases h2 : c.input_type = "greeting"
    · rw [if_pos h2] at h
      cases h
    · rw [if_neg h2] at h
      simp only [Route.pipeline.injEq] at h
      subst h
      rcases step3Upgrade_action "single" _ with ha | ha <;> rw [ha] <;> simp
  · rw [if_neg h1] at h
    by_cases h2 : c.suggested_action = "basic_enhancement" ∧
        qltB c.input_complexity_score (mkRat 2 5) = true
    · rw [if_pos h2] at h
      simp only [Route.pipeline.injEq] at h
      subst h
      rcases step3Upgrade_action "single" _ with ha | ha <;> rw [ha] <;> simp
    · rw [if_neg h2] at h
      simp only [Route.pipeline.injEq] at h
      subst h
      rcases step3Upgrade_action "single" c with ha | ha <;> rw [ha]
      · exact h1
      · simp

theorem routeMode_single_clar_greeting (c : IntentClassification)
    (ha : c.suggested_action = "request_clarification") (hg : c.input_type = "greeting") :
    routeMode "single" c = .greetingRoute c := by
  unfold routeMode
  rw [if_pos rfl, if_pos ha, if_pos hg]

theorem routeMode_single_clar_nongreet (c : IntentClassification)
    (ha : c.suggested_action = "request_clarification") (hg : c.input_type ≠ "greeting") :
    routeMode "single" c = .pipeline
      { c with suggested_action := "standard_enhancement",
               input_complexity_score :=
                 if qltB c.input_complexity_score (mkRat 1 2) = true then mkRat 1 2
                 else c.input_complexity_score } := by
  unfold routeMode
  rw [if_pos rfl, if_pos ha, if_neg hg, step3Upgrade_of_not_basic _ _ (by simp)]

/-- C2 (confirmed).  In mode `"single"` a returned result never has
`enhancement_type = "request_clarification"`: a clarification-classified
greeting is answered from the greeting templates with no further
generation call, and any other clarification-classified input continues
the pipeline with `suggested_action` forced to `"standard_enhancement"`
(which is at least `basic_enhancement`) and its complexity score floored
at `0.5`. -/
theorem c2_single_never_clarification (u : Upstream) (prompt : String) (r : OrchResult)
    (h : orchestrate_enhancement u prompt "single" = .ok r) :
    r.enhancement_type ≠ "request_clarification" ∧
    (∀ c, parse_intent_json (Runner.run u.classifierApi).final_output = .ok c →
      c.suggested_action = "request_clarification" →
      ((c.input_type = "greeting" →
          r.enhancement_type = "enhanced_greeting" ∧
          r.enhanced_prompt = create_enhanced_greeting_response u.hour prompt c ∧
          r.callsMade = ["intent_classification"]) ∧
       (c.input_type ≠ "greeting" →
          r.intent_analysis.suggested_action = "standard_enhancement" ∧
          mkRat 1 2 ≤ r.intent_analysis.input_complexity_score))) := by
  unfold orchestrate_enhancement at h
  cases hp : parse_intent_json (Runner.run u.classifierApi).final_output with
  | error e =>
    rw [hp] at h
    cases h
  | ok c0 =>
    rw [hp] at h
    change orchRoute u prompt "single" (routeMode "single" c0) = .ok r at h
    cases hr : routeMode "single" c0 with
    | clarificationRoute c =>
      exact absurd hr (routeMode_single_not_clarification c0 c)
    | greetingRoute c =>
      rw [hr] at h
      simp only [orchRoute] at h
      injection h with h'
      subst h'
      refine ⟨by simp, ?_⟩
      intro c1 hc1 ha1
      injection hc1 with hcc
      subst hcc
      constructor
      · intro hgr
        have hcg : c = c0 := by
          have := routeMode_single_clar_greeting c0 ha1 hgr
          rw [this] at hr
          injection hr with h2
          exact h2.symm
        subst hcg
        exact ⟨rfl, rfl, rfl⟩
      · intro hng
        have := routeMode_single_clar_nongreet c0 ha1 hng
        rw [this] at hr
        cases hr
    | pipeline c =>
      rw [hr] at h
      simp only [orchRoute] at h
      have hact := routeMode_single_pipeline_action c0 c hr
      by_cases hb : c.suggested_action = "basic_enhancement"
      · rw [if_pos hb] at h
        injection h with h'
        subst h'
        refine ⟨by simp, ?_⟩
        intro c1 hc1 ha1
        injection hc1 with hcc
        subst hcc
        constructor
        · intro hgr
          have := routeMode_single_clar_greeting c0 ha1 hgr
          rw [this] at hr
          cases hr
        · intro hng
          have hh := routeMode_single_clar_nongreet c0 ha1 hng
          rw [hh] at hr
          injection hr with h2
          subst h2
          refine ⟨rfl, ?_⟩
          by_cases hq : qltB c0.input_complexity_score (mkRat 1 2) = true
          · simp only [if_pos hq]
            exact le_refl _
          · simp only [if_neg hq]
            have : ¬ (c0.input_complexity_score < mkRat 1 2) := fun hlt =>
              hq ((qltB_iff _ _).mpr hlt)
            exact le_of_not_lt this
      · rw [if_neg hb] at h
        by_cases ht : (enhanced_safety_guardrail (Runner.run u.safetyApi).final_output
            prompt).tripwire = true
        · rw [if_pos ht] at h
          cases h
        · rw [if_neg ht] at h
          injection h with h'
          subst h'
          refine ⟨hact, ?_⟩
          intro c1 hc1 ha1
          injection hc1 with hcc
          subst hcc
          constructor
          · intro hgr
            have := routeMode_single_clar_greeting c0 ha1 hgr
            rw [this] at hr
            cases hr
          · intro hng
            have hh := routeMode_single_clar_nongreet c0 ha1 hng
            rw [hh] at hr
            injection hr with h2
            subst h2
            refine ⟨rfl, ?_⟩
            by_cases hq : qltB c0.input_complexity_score (mkRat 1 2) = true
            · simp only [if_pos hq]
              exact le_refl _
            · simp only [if_neg hq]
              have : ¬ (c0.input_complexity_score < mkRat 1 2) := fun hlt =>
                hq ((qltB_iff _ _).mpr hlt)
              exact le_of_not_lt this

/-- Concrete oracle for the C2 witness: the classifier replies with plain
text `"hi"`, which the heuristic fallback classifies as a greeting with
`suggested_action = "request_clarification"`. -/
def u2w : Upstream :=
  { classifierModel := "cls-model", classifierApi := .ok "hi",
    contextModel := "ctx-model", contextApi := .ok "context text",
    methodologyModel := "meth-model", methodologyApi := .ok "methodology text",
    enhancementModel := "enh-model", enhancerApi := .ok "enhanced text",
    basicModel := "basic-model", basicApi := .ok "basic text",
    safetyApi := .ok "SAFE", hour := 10 }

def c2wIntent : IntentClassification := heuristicCls (preprocessText "hi")

def c2wResult : OrchResult :=
  { enhanced_prompt := create_enhanced_greeting_response 10 "hi" c2wIntent
    intent_analysis := c2wIntent
    enhancement_type := "enhanced_greeting"
    supporting_context_length := 0
    methodology_guidance_length := 0
    domain_research_performed := false
    methodology_4d_applied := true
    process_steps := ["intent_classification", "single_mode_greeting_enhancement"]
    enhancement_ratio_q := round1 (qdiv
      (mkRat (pyLen (create_enhanced_greeting_response 10 "hi" c2wIntent) : ℤ) 1)
      (mkRat (pyLen "hi" : ℤ) 1))
    complexity_score := c2wIntent.input_complexity_score
    model_used := some "greeting_template"
    models_used := none
    mode := "single"
    callsMade := ["intent_classification"] }

/-- C2 witness: a concrete single-mode run (input `"hi"`, heuristic
greeting classification) returns a result, and the theorem applies to it. -/
theorem c2_witness :
    orchestrate_enhancement u2w "hi" "single" = Except.ok c2wResult ∧
    c2wResult.enhancement_type ≠ "request_clarification" :=
  ⟨rfl, (c2_single_never_clarification u2w "hi" c2wResult rfl).1⟩

/-- Unfolding lemma for the retry loop: starting at attempt `i` with
current delay `d`, if the next `k` attempts fail with rate-limit-class
errors and attempt `i + k` succeeds within the retry budget, the loop
returns the success value after exactly the `k` expected sleeps. -/
theorem rlAux_spec {V : Type} (cfg : RateLimitConfig) (f : Nat → Except String V)
    (jit : Nat → ℚ) (v : V) :
    ∀ (k i fuel : Nat) (d : ℚ) (sl : List ℚ),
    (∀ j, j < k → ∃ m, f (i + j) = .error m ∧ isRateLimitError m = true) →
    f (i + k) = .ok v →
    i + k ≤ cfg.maxRetries →
    k < fuel →
    rlAux cfg f jit i fuel d sl =
      (.ok v, sl ++ (List.range k).map (fun j =>
        min (d * cfg.backoffMultiplier ^ j * (1 + jit (i + j))) cfg.maxDelay)) := by
  intro k
  induction k with
  | zero =>
    intro i fuel d sl _ hsucc _ hfuel
    cases fuel with
    | zero => omega
    | succ fu =>
      rw [Nat.add_zero] at hsucc
      simp only [rlAux, hsucc, List.range_zero, List.map_nil, List.append_nil]
  | succ k ih =>
    intro i fuel d sl hfail hsucc hbound hfuel
    cases fuel with
    | zero => omega
    | succ fu =>
      obtain ⟨m0, hm0, hrl0⟩ := hfail 0 (Nat.succ_pos k)
      rw [Nat.add_zero] at hm0
      have hi : i < cfg.maxRetries := by omega
      have step : rlAux cfg f jit i (fu + 1) d sl =
          rlAux cfg f jit (i + 1) fu (qmul d cfg.backoffMultiplier)
            (sl ++ [qmin (qmul d (qadd 1 (jit i))) cfg.maxDelay]) := by
        simp only [rlAux, hm0, hrl0, if_true, hi, if_pos]
      rw [step, ih (i + 1) fu (qmul d cfg.backoffMultiplier) _
        (fun j hj => by
          obtain ⟨m, hm, hr⟩ := hfail (j + 1) (by omega)
          exact ⟨m, by rw [show i + 1 + j = i + (j + 1) by omega]; exact hm, hr⟩)
        (by rw [show i + 1 + k = i + (k + 1) by omega]; exact hsucc)
        (by omega) (by omega)]
      rw [List.range_succ_eq_map, List.map_cons, List.map_map]
      rw [List.append_assoc, List.singleton_append]
      have htail : List.map
          (fun j => qmul d cfg.backoffMultiplier * cfg.backoffMultiplier ^ j *
            (1 + jit (i + 1 + j)) ⊓ cfg.maxDelay) (List.range k) =
          List.map ((fun j => d * cfg.backoffMultiplier ^ j * (1 + jit (i + j)) ⊓ cfg.maxDelay)
            ∘ Nat.succ) (List.range k) := by
        apply List.map_congr_left
        intro a _
        simp only [Function.comp]
        rw [qmul_eq, show i + 1 + a = i + (a + 1) from by omega]
        congr 1
        rw [pow_succ]
        ring
      rw [qmin_eq, qmul_eq, qadd_eq, htail]
      simp

/-- C3 (confirmed).  If the operation fails with a rate-limit-class error
exactly `k < max_retries` times and then succeeds, `rate_limited_request`
returns the success value after exactly `k` sleeps, the `j`-th sleep
being `min(delay_j · (1 + jitter_j), max_delay)` with
`delay_j = base_delay · multiplier^j`; and with a multiplier `≥ 1` (the
source uses `2.0`) and a nonnegative base delay the base-delay sequence
is non-decreasing across attempts. -/
theorem c3_retry_success {V : Type} (cfg : RateLimitConfig) (f : Nat → Except String V)
    (jit : Nat → ℚ) (k : Nat) (v : V)
    (hfail : ∀ j, j < k → ∃ m, f j = .error m ∧ isRateLimitError m = true)
    (hsucc : f k = .ok v)
    (hk : k < cfg.maxRetries) :
    rate_limited_request cfg f jit =
      (.ok v, (List.range k).map (fun j =>
        min (cfg.baseDelay * cfg.backoffMultiplier ^ j * (1 + jit j)) cfg.maxDelay)) ∧
    (1 ≤ cfg.backoffMultiplier → 0 ≤ cfg.baseDelay → ∀ i j, i ≤ j →
      cfg.baseDelay * cfg.backoffMultiplier ^ i ≤ cfg.baseDelay * cfg.backoffMultiplier ^ j) := by
  constructor
  · have := rlAux_spec cfg f jit v k 0 (cfg.maxRetries + 1) cfg.baseDelay []
      (fun j hj => by rw [Nat.zero_add]; exact hfail j hj)
      (by rw [Nat.zero_add]; exact hsucc)
      (by omega) (by omega)
    rw [rate_limited_request, this, List.nil_append]
    simp only [Nat.zero_add]
  · intro h1 h0 i j hij
    exact mul_le_mul_of_nonneg_left (pow_le_pow_right₀ h1 hij) h0

/-- C3 witness: with the source configuration, two `429 Too Many
Requests` failures followed by success return the value after exactly two
sleeps of the expected durations. -/
theorem c3_witness :
    rate_limited_request sourceRateLimitConfig
      (fun i => if i < 2 then .error "429 Too Many Requests" else .ok (42 : Nat))
      (fun _ => (0 : ℚ)) =
    (.ok 42, (List.range 2).map (fun j =>
      min (sourceRateLimitConfig.baseDelay * sourceRateLimitConfig.backoffMultiplier ^ j *
        (1 + (fun _ => (0 : ℚ)) j)) sourceRateLimitConfig.maxDelay)) :=
  (c3_retry_success sourceRateLimitConfig
    (fun i => if i < 2 then .error "429 Too Many Requests" else .ok (42 : Nat))
    (fun _ => (0 : ℚ)) 2 42
    (fun j hj => ⟨"429 Too Many Requests", by simp [hj], rfl⟩)
    rfl (by decide)).1

/- Comparison helpers for concrete rationals (the executable comparisons
reduce by `rfl`, the bridges transport them to the order on ℚ). -/

theorem le_of_qleB {a b : ℚ} (h : qleB a b = true) : a ≤ b := (qleB_iff a b).mp h

theorem lt_of_qltB {a b : ℚ} (h : qltB a b = true) : a < b := (qltB_iff a b).mp h

theorem not_le_of_qleB {a b : ℚ} (h : qleB a b = false) : ¬ a ≤ b := fun hle => by
  rw [(qleB_iff a b).mpr hle] at h
  cases h

/- ----------------------------------------------------------------- -/
/- C4: fatal upstream errors.                                         -/
/- ----------------------------------------------------------------- -/

/-- Concrete oracle for C4: a well-formed classification routing to the
basic-enhancement stage, whose upstream call raises a fatal
(non-rate-limit) authentication error. -/
def u4 : Upstream :=
  { classifierModel := "cls-model",
    classifierApi := .ok "\x7b\"suggested_action\": \"basic_enhancement\", \"input_complexity_score\": 0.45\x7d",
    contextModel := "ctx-model", contextApi := .ok "ctx",
    methodologyModel := "meth-model", methodologyApi := .ok "meth",
    enhancementModel := "enh-model", enhancerApi := .ok "enh",
    basicModel := "basic-model", basicApi := .exn "invalid api key",
    safetyApi := .ok "SAFE", hour := 9 }

/-- C4 (counterexample).  A fatal upstream error in the basic-enhancement
stage does not propagate: the orchestration returns an ordinary success
whose output text is the stringified exception. -/
theorem c4_counterexample :
    (orchestrate_enhancement u4 "make me a website" "multi").map
      (fun (r : OrchResult) => (r.enhanced_prompt, r.enhancement_type)) =
    .ok ("Error: invalid api key", "basic_enhancement") := rfl

/-- C4 (amended).  `Runner.run` converts every non-tripwire exception into
`AgentResult("Error: <msg>", success=False)`, and the orchestration
returns that text as its ordinary output: a fatal upstream error in the
basic-enhancement stage is never retried but also never surfaced — it
becomes the enhanced text of a successful result. -/
theorem c4_error_swallowed (u : Upstream) (p mode m : String)
    (c0 c' : IntentClassification)
    (hp : parse_intent_json (Runner.run u.classifierApi).final_output = .ok c0)
    (hroute : routeMode mode c0 = .pipeline c')
    (hb : c'.suggested_action = "basic_enhancement")
    (hexn : u.basicApi = .exn m) :
    Runner.run u.basicApi = { final_output := "Error: " ++ m, success := false } ∧
    (orchestrate_enhancement u p mode).map
      (fun (r : OrchResult) => (r.enhanced_prompt, r.enhancement_type)) =
      .ok ("Error: " ++ m, "basic_enhancement") := by
  constructor
  · rw [hexn]
    rfl
  · unfold orchestrate_enhancement
    rw [hp]
    show (orchRoute u p mode (routeMode mode c0)).map _ = _
    rw [hroute]
    simp only [orchRoute]
    rw [if_pos hb, hexn]
    rfl

def c4Intent : IntentClassification :=
  { intent_category := "other", confidence := mkRat 1 2, specific_domain := none,
    complexity_level := "basic", requires_context := true,
    input_complexity_score := mkRat 9 20, enhancement_recommended := true,
    suggested_action := "basic_enhancement", conversation_starter := none,
    input_type := "minimal" }

/-- C4 witness: the amended theorem applied to the concrete oracle `u4`. -/
theorem c4_witness :
    Runner.run u4.basicApi = { final_output := "Error: invalid api key", success := false } ∧
    (orchestrate_enhancement u4 "make me a website" "multi").map
      (fun (r : OrchResult) => (r.enhanced_prompt, r.enhancement_type)) =
      .ok ("Error: invalid api key", "basic_enhancement") :=
  c4_error_swallowed u4 "make me a website" "multi" "invalid api key" c4Intent c4Intent
    rfl rfl rfl rfl

/- ----------------------------------------------------------------- -/
/- C5/C6/C7: the classification parser.                               -/
/- ----------------------------------------------------------------- -/

/-- Shared helper: when the three extraction strategies recover no truthy
JSON value, `parse_intent_json` returns the deterministic heuristic
fallback (and in particular raises nothing). -/
theorem parseIntent_no_recovery (s : String)
    (h : ∀ v, recoverJson (preprocessText s) = some v → jTruthy v = false) :
    parse_intent_json s = .ok (heuristicCls (preprocessText s)) := by
  unfold parse_intent_json
  cases hrec : recoverJson (preprocessText s) with
  | none => rfl
  | some v =>
    simp only [parseRecovered, h v hrec]
    rfl

/-- Shared helper: a successful `IntentClassification(...)` construction
takes `suggested_action` verbatim from the upstream dict (defaulting to
`"standard_enhancement"`) and `input_complexity_score` through `float(...)`
with no clamping. -/
theorem buildClassification_fields (d : List (String × Json)) (c : IntentClassification)
    (h : buildClassification d = .ok c) :
    jGetD d "suggested_action" (.str "standard_enhancement") = .str c.suggested_action ∧
    pyFloatJ (jGetD d "input_complexity_score" (.num (mkRat 1 2))) =
      .ok c.input_complexity_score := by
  unfold buildClassification at h
  cases h1 : pyFloatJ (jGetD d "confidence" (.num (mkRat 1 2))) with
  | error e => rw [h1] at h; cases h
  | ok conf =>
  rw [h1] at h
  cases h2 : pyFloatJ (jGetD d "input_complexity_score" (.num (mkRat 1 2))) with
  | error e => rw [h2] at h; cases h
  | ok score =>
  rw [h2] at h
  cases h3 : pyStrJ (jGetD d "intent_category" (.str "other")) with
  | error e => rw [h3] at h; cases h
  | ok cat =>
  rw [h3] at h
  cases h4 : pyOptStrJ (jGetD d "specific_domain" .null) with
  | error e => rw [h4] at h; cases h
  | ok dom =>
  rw [h4] at h
  cases h5 : pyStrJ (jGetD d "complexity_level" (.str "basic")) with
  | error e => rw [h5] at h; cases h
  | ok lvl =>
  rw [h5] at h
  cases h6 : pyStrJ (jGetD d "suggested_action" (.str "standard_enhancement")) with
  | error e => rw [h6] at h; cases h
  | ok act =>
  rw [h6] at h
  cases h7 : pyOptStrJ (jGetD d "conversation_starter" .null) with
  | error e => rw [h7] at h; cases h
  | ok starter =>
  rw [h7] at h
  cases h8 : pyStrJ (jGetD d "input_type" (.str "minimal")) with
  | error e => rw [h8] at h; cases h
  | ok ity =>
  rw [h8] at h
  injection h with h'
  subst h'
  constructor
  · rcases hv : jGetD d "suggested_action" (.str "standard_enhancement") with
      _ | b | q | sVal | l | o
    · rw [hv] at h6; cases h6
    · rw [hv] at h6; cases h6
    · rw [hv] at h6; cases h6
    · rw [hv] at h6
      injection h6 with h6'
      rw [h6']
    · rw [hv] at h6; cases h6
    · rw [hv] at h6; cases h6
  · rfl

/-- C5 (counterexample).  The parser can raise: the raw text `"5"` parses
to a truthy non-dict JSON value, whose `.get` attribute access raises an
uncaught `AttributeError` (the `except` clause catches only
`JSONDecodeError`, `ValueError` and `KeyError`). -/
theorem c5_counterexample :
    parse_intent_json "5" = .error .attributeError := rfl

/-- C5 (amended).  Whenever the three strategies recover no truthy JSON
value, `parse_intent_json` raises nothing and returns the deterministic
heuristic fallback; but a truthy non-dict recovery (for example a bare
number) raises `AttributeError`, so "never raises" is false in general. -/
theorem c5_fallback_total (s : String)
    (h : ∀ v, recoverJson (preprocessText s) = some v → jTruthy v = false) :
    parse_intent_json s = .ok (heuristicCls (preprocessText s)) :=
  parseIntent_no_recovery s h

/-- C5 witness: on plain prose nothing is recovered and the parser
returns exactly the heuristic fallback. -/
theorem c5_witness :
    parse_intent_json "The user wants something unclear." =
      .ok (heuristicCls (preprocessText "The user wants something unclear.")) :=
  c5_fallback_total "The user wants something unclear." (fun v hv => by
    rw [show recoverJson (preprocessText "The user wants something unclear.") = none
      from rfl] at hv
    cases hv)

/-- Shared helper: a parsed classification on the dict path comes from a
successful construction, or from the heuristic after an absorbed
`ValueError`. -/
theorem parseIntent_obj (s : String) (c : IntentClassification) (d : List (String × Json))
    (hrec : recoverJson (preprocessText s) = some (.obj d))
    (htru : jTruthy (Json.obj d) = true)
    (h : parse_intent_json s = .ok c) :
    buildClassification d = .ok c ∨
      (buildClassification d = .error .caughtValue ∧
        c = heuristicCls (preprocessText s)) := by
  unfold parse_intent_json at h
  rw [hrec] at h
  cases hb : buildClassification d with
  | ok c2 =>
    simp only [parseRecovered, htru, if_true, hb, Except.ok.injEq] at h
    exact Or.inl (by rw [h])
  | error e =>
    cases e
    · simp only [parseRecovered, htru, if_true, hb, Except.ok.injEq] at h
      exact Or.inr ⟨rfl, h.symm⟩
    · simp only [parseRecovered, htru, if_true, hb] at h
      cases h
    · simp only [parseRecovered, htru, if_true, hb] at h
      cases h

/-- The §4.3 threshold table exactly as the spec states it — the
spec-side definition that C6 compares the code against. -/
def specThresholdAction (q : ℚ) : String :=
  if qltB q (mkRat 3 10) then "request_clarification"
  else if qltB q (mkRat 1 2) then "basic_enhancement"
  else if qltB q (mkRat 7 10) then "standard_enhancement"
  else "advanced_enhancement"

/-- C6 (counterexample).  The heuristic fallback on the raw text `"code"`
produces `input_complexity_score = 0.6` with
`suggested_action = "basic_enhancement"`, while the spec's threshold
table demands `"standard_enhancement"` for a score in `[0.5, 0.7)`. -/
theorem c6_counterexample :
    (parse_intent_json "code").map (fun (c : IntentClassification) =>
      (c.input_complexity_score, c.suggested_action)) =
      .ok (mkRat 3 5, "basic_enhancement")
    ∧ specThresholdAction (mkRat 3 5) = "standard_enhancement"
    ∧ ("basic_enhancement" : String) ≠ "standard_enhancement" := by
  refine ⟨rfl, rfl, ?_⟩
  decide

/-- C6 (amended).  On the heuristic path `suggested_action` is a
deterministic two-valued function of the score (`request_clarification`
below 0.3, else `basic_enhancement` — not the spec's four-band table);
on the parsed path it is copied verbatim from the upstream dict
(defaulting to `"standard_enhancement"`), independent of the score. -/
theorem c6_action_source (s : String) (c : IntentClassification)
    (h : parse_intent_json s = .ok c) :
    ((∀ v, recoverJson (preprocessText s) = some v → jTruthy v = false) →
      c.suggested_action =
        (if qltB c.input_complexity_score (mkRat 3 10) then "request_clarification"
         else "basic_enhancement")) ∧
    (∀ d, recoverJson (preprocessText s) = some (.obj d) → jTruthy (Json.obj d) = true →
      buildClassification d = .ok c →
      jGetD d "suggested_action" (.str "standard_enhancement") = .str c.suggested_action) := by
  constructor
  · intro hno
    have hc := parseIntent_no_recovery s hno
    rw [h] at hc
    injection hc with hcc
    rw [hcc]
    rfl
  · intro d _ _ hb
    exact (buildClassification_fields d c hb).1

def c6wText : String := "please write a short note"

/-- C6 witness: heuristic classification of a creative text follows the
two-valued rule (score 0.4 gives `basic_enhancement`). -/
theorem c6_witness :
    (heuristicCls (preprocessText c6wText)).suggested_action =
      (if qltB (heuristicCls (preprocessText c6wText)).input_complexity_score (mkRat 3 10)
        then "request_clarification" else "basic_enhancement") :=
  (c6_action_source c6wText (heuristicCls (preprocessText c6wText)) rfl).1
    (fun v hv => by
      rw [show recoverJson (preprocessText c6wText) = none from rfl] at hv
      cases hv)

/-- C7 (counterexample).  The parsed path performs no clamping: an
upstream `input_complexity_score` of `2.5` is stored verbatim, outside
`[0, 1]`. -/
theorem c7_counterexample :
    (parse_intent_json "\x7b\"input_complexity_score\": 2.5\x7d").map
      (fun (c : IntentClassification) => c.input_complexity_score) = .ok (mkRat 5 2)
    ∧ ¬ (mkRat 5 2 : ℚ) ≤ 1 := by
  refine ⟨rfl, ?_⟩
  have : qleB (mkRat 5 2) (mkRat 1 1) = false := rfl
  intro hle
  exact not_le_of_qleB this (by rw [show (mkRat 1 1 : ℚ) = 1 from rfl]; exact hle)

/-- C7 (amended).  On the heuristic fallback path
`input_complexity_score` always lies in `[0, 1]`; on the parsed path it
equals the upstream-provided number unclamped (default `0.5`), so the
invariant holds only when the upstream value already lies in `[0, 1]`. -/
theorem c7_score_range (s : String) (c : IntentClassification)
    (h : parse_intent_json s = .ok c) :
    ((∀ v, recoverJson (preprocessText s) = some v → jTruthy v = false) →
      0 ≤ c.input_complexity_score ∧ c.input_complexity_score ≤ 1) ∧
    (∀ d q, recoverJson (preprocessText s) = some (.obj d) →
      buildClassification d = .ok c →
      jGetD d "input_complexity_score" (.num (mkRat 1 2)) = .num q →
      c.input_complexity_score = q) := by
  constructor
  · intro hno
    have hc := parseIntent_no_recovery s hno
    rw [h] at hc
    injection hc with hcc
    rw [hcc]
    simp only [heuristicCls]
    split_ifs <;> constructor <;>
      first
        | exact Rat.mkRat_nonneg (by omega) _
        | exact le_of_qleB rfl
  · intro d q _ hb hq
    have := (buildClassification_fields d c hb).2
    rw [hq] at this
    injection this with h'
    exact h'.symm

/-- C7 witness: a concrete heuristic-path classification has its score in
`[0, 1]`. -/
theorem c7_witness :
    parse_intent_json "just some text" =
      .ok (heuristicCls (preprocessText "just some text")) ∧
    (0 ≤ (heuristicCls (preprocessText "just some text")).input_complexity_score ∧
      (heuristicCls (preprocessText "just some text")).input_complexity_score ≤ 1) :=
  ⟨rfl, (c7_score_range "just some text" (heuristicCls (preprocessText "just some text")) rfl).1
    (fun v hv => by
      rw [show recoverJson (preprocessText "just some text") = none from rfl] at hv
      cases hv)⟩

/- ----------------------------------------------------------------- -/
/- C8: stage gating.                                                  -/
/- ----------------------------------------------------------------- -/

/-- Concrete oracle for C8: a parsed classification with
`requires_context = false` and score `0.6`, so the context stage is
gated out while the methodology stage runs. -/
def u8 : Upstream :=
  { classifierModel := "cls-model",
    classifierApi := .ok "\x7b\"suggested_action\": \"standard_enhancement\", \"input_complexity_score\": 0.6, \"requires_context\": false\x7d",
    contextModel := "ctx-model", contextApi := .ok "ctx",
    methodologyModel := "meth-model", methodologyApi := .ok "meth",
    enhancementModel := "enh-model", enhancerApi := .ok "enhanced output",
    basicModel := "basic-model", basicApi := .ok "basic",
    safetyApi := .ok "SAFE", hour := 9 }

/-- C8 (counterexample).  A gated-out context stage is not invoked and
not in `process_steps`, but its `models_used` entry is present with a
null value — the key `"context"` maps to `none` — rather than being
absent as the claim states. -/
theorem c8_counterexample :
    (orchestrate_enhancement u8 "improve my essay about history" "multi").map
      (fun (r : OrchResult) => (r.models_used, r.process_steps, r.callsMade)) =
    .ok (some [("classification", some "cls-model"), ("context", none),
        ("methodology", some "meth-model"), ("enhancement", some "enh-model")],
      ["intent_classification", "4d_methodology_application",
        "proportional_prompt_optimization"],
      ["intent_classification", "methodology", "safety_check", "enhancement"])
    ∧ ("context", (none : Option String)) ∈
        [("classification", some "cls-model"), ("context", (none : Option String)),
          ("methodology", some "meth-model"), ("enhancement", some "enh-model")] := by
  refine ⟨rfl, ?_⟩
  simp

/-- C8 (amended).  On the full pipeline path the context stage runs (and
appears in `process_steps` and the call trace) exactly when
`requires_context` holds and the score exceeds `0.4`, the methodology
stage exactly when the score exceeds `0.5`; but the returned
`models_used` dict always contains all four keys, a gated-out stage
being mapped to a null value rather than omitted. -/
theorem c8_stage_gating (u : Upstream) (p mode : String) (r : OrchResult)
    (mu : List (String × Option String))
    (h : orchestrate_enhancement u p mode = .ok r)
    (hmu : r.models_used = some mu) :
    (("domain_context_research" ∈ r.process_steps) ↔
      (r.intent_analysis.requires_context = true ∧
        mkRat 2 5 < r.intent_analysis.input_complexity_score)) ∧
    (("context_gathering" ∈ r.callsMade) ↔
      (r.intent_analysis.requires_context = true ∧
        mkRat 2 5 < r.intent_analysis.input_complexity_score)) ∧
    (("4d_methodology_application" ∈ r.process_steps) ↔
      mkRat 1 2 < r.intent_analysis.input_complexity_score) ∧
    (("methodology" ∈ r.callsMade) ↔
      mkRat 1 2 < r.intent_analysis.input_complexity_score) ∧
    mu = [("classification", some u.classifierModel),
      ("context", if r.intent_analysis.requires_context &&
          qltB (mkRat 2 5) r.intent_analysis.input_complexity_score then
        some u.contextModel else none),
      ("methodology", if qltB (mkRat 1 2) r.intent_analysis.input_complexity_score then
        some u.methodologyModel else none),
      ("enhancement", some u.enhancementModel)] := by
  unfold orchestrate_enhancement at h
  cases hp : parse_intent_json (Runner.run u.classifierApi).final_output with
  | error e =>
    rw [hp] at h
    cases h
  | ok c0 =>
    rw [hp] at h
    change orchRoute u p mode (routeMode mode c0) = .ok r at h
    cases hr : routeMode mode c0 with
    | greetingRoute c =>
      rw [hr] at h
      simp only [orchRoute] at h
      injection h with h'
      subst h'
      cases hmu
    | clarificationRoute c =>
      rw [hr] at h
      simp only [orchRoute] at h
      injection h with h'
      subst h'
      cases hmu
    | pipeline c =>
      rw [hr] at h
      simp only [orchRoute] at h
      by_cases hb : c.suggested_action = "basic_enhancement"
      · rw [if_pos hb] at h
        injection h with h'
        subst h'
        cases hmu
      · rw [if_neg hb] at h
        by_cases ht : (enhanced_safety_guardrail (Runner.run u.safetyApi).final_output
            p).tripwire = true
        · rw [if_pos ht] at h
          cases h
        · rw [if_neg ht] at h
          injection h with h'
          subst h'
          injection hmu with hmu'
          subst hmu'
          by_cases hb1 : (c.requires_context &&
              qltB (mkRat 2 5) c.input_complexity_score) = true
          · have hcond : c.requires_context = true ∧ mkRat 2 5 < c.input_complexity_score := by
              rw [Bool.and_eq_true] at hb1
              exact ⟨hb1.1, (qltB_iff _ _).mp hb1.2⟩
            by_cases hb2 : qltB (mkRat 1 2) c.input_complexity_score = true
            · have hcond2 : mkRat 1 2 < c.input_complexity_score := (qltB_iff _ _).mp hb2
              simp only [hb1, hb2, if_true]
              simp_all
            · have hcond2 : ¬ mkRat 1 2 < c.input_complexity_score := fun hlt =>
                hb2 ((qltB_iff _ _).mpr hlt)
              simp only [hb1, hb2, if_true, if_false]
              simp_all
          · have hcond : ¬ (c.requires_context = true ∧
                mkRat 2 5 < c.input_complexity_score) := fun ⟨ha, hlt⟩ =>
              hb1 (by rw [Bool.and_eq_true]; exact ⟨ha, (qltB_iff _ _).mpr hlt⟩)
            by_cases hb2 : qltB (mkRat 1 2) c.input_complexity_score = true
            · have hcond2 : mkRat 1 2 < c.input_complexity_score := (qltB_iff _ _).mp hb2
              simp only [hb1, hb2, if_true, if_false]
              simp_all
            · have hcond2 : ¬ mkRat 1 2 < c.input_complexity_score := fun hlt =>
                hb2 ((qltB_iff _ _).mpr hlt)
              simp only [hb1, hb2, if_false]
              simp_all

/-- Concrete oracle for the C8 witness: `requires_context` defaults to
true and the score `0.45` lets the context stage run while the
methodology stage stays gated out. -/
def u8w : Upstream :=
  { classifierModel := "cls-model",
    classifierApi := .ok "\x7b\"suggested_action\": \"standard_enhancement\", \"input_complexity_score\": 0.45\x7d",
    contextModel := "ctx-model", contextApi := .ok "ctx",
    methodologyModel := "meth-model", methodologyApi := .ok "meth",
    enhancementModel := "enh-model", enhancerApi := .ok "enhanced output",
    basicModel := "basic-model", basicApi := .ok "basic",
    safetyApi := .ok "SAFE", hour := 9 }

def p8w : String := "polish this draft"

def c8wIntent : IntentClassification :=
  { intent_category := "other", confidence := mkRat 1 2, specific_domain := none,
    complexity_level := "basic", requires_context := true,
    input_complexity_score := mkRat 9 20, enhancement_recommended := true,
    suggested_action := "standard_enhancement", conversation_starter := none,
    input_type := "minimal" }

def c8wMu : List (String × Option String) :=
  [("classification", some "cls-model"), ("context", some "ctx-model"),
   ("methodology", none), ("enhancement", some "enh-model")]

def c8wResult : OrchResult :=
  { enhanced_prompt := "enhanced output"
    intent_analysis := c8wIntent
    enhancement_type := "standard_enhancement"
    supporting_context_length := pyLen "ctx"
    methodology_guidance_length := 0
    domain_research_performed := true
    methodology_4d_applied := false
    process_steps := ["intent_classification", "domain_context_research",
      "proportional_prompt_optimization"]
    enhancement_ratio_q := round1 (qdiv (mkRat (pyLen "enhanced output" : ℤ) 1)
      (mkRat (pyLen p8w : ℤ) 1))
    complexity_score := mkRat 9 20
    model_used := none
    models_used := some c8wMu
    mode := "multi"
    callsMade := ["intent_classification", "context_gathering", "safety_check",
      "enhancement"] }

/-- C8 witness: a concrete full-pipeline run with the context stage gated
in and the methodology stage gated out, to which the gating theorem
applies. -/
theorem c8_witness :
    orchestrate_enhancement u8w p8w "multi" = .ok c8wResult ∧
    (("domain_context_research" ∈ c8wResult.process_steps) ↔
      (c8wResult.intent_analysis.requires_context = true ∧
        mkRat 2 5 < c8wResult.intent_analysis.input_complexity_score)) :=
  ⟨rfl, (c8_stage_gating u8w p8w "multi" c8wResult c8wMu rfl rfl).1⟩

/- ----------------------------------------------------------------- -/
/- C9: the enhancement ratio.                                         -/
/- ----------------------------------------------------------------- -/

theorem qdiv_natCast (a b : Nat) :
    qdiv (mkRat (a : ℤ) 1) (mkRat (b : ℤ) 1) = (a : ℚ) / (b : ℚ) := by
  rw [qdiv_eq, Rat.mkRat_one, Rat.mkRat_one, Int.cast_natCast, Int.cast_natCast]

/-- Concrete oracle for C9: a basic-enhancement run producing a 7-char
output for a 3-char input. -/
def u9 : Upstream :=
  { classifierModel := "cls-model",
    classifierApi := .ok "\x7b\"suggested_action\": \"basic_enhancement\", \"input_complexity_score\": 0.45\x7d",
    contextModel := "ctx-model", contextApi := .ok "ctx",
    methodologyModel := "meth-model", methodologyApi := .ok "meth",
    enhancementModel := "enh-model", enhancerApi := .ok "enh",
    basicModel := "basic-model", basicApi := .ok "abcdefg",
    safetyApi := .ok "SAFE", hour := 9 }

/-- C9 (counterexample).  For lengths 7 and 3 the stored ratio is
`round(7/3, 1) = 2.3`, not the exact quotient `7/3`. -/
theorem c9_counterexample :
    (orchestrate_enhancement u9 "abc" "multi").map (fun (r : OrchResult) =>
      (r.enhancement_ratio_q, r.enhanced_prompt.length)) = .ok (mkRat 23 10, 7)
    ∧ ("abc" : String).length = 3
    ∧ (mkRat 23 10 : ℚ) ≠ (mkRat 7 1 : ℚ) / mkRat 3 1 := by
  refine ⟨rfl, rfl, ?_⟩
  rw [← qdiv_eq]
  decide

/-- C9 (amended).  For every returned result (on every path) with a
non-empty input, `enhancement_ratio` equals the length quotient rounded
to one decimal place — `round(len(enhanced)/len(original), 1)` — not the
exact quotient. -/
theorem c9_ratio_rounded (u : Upstream) (p mode : String) (r : OrchResult)
    (hp : p ≠ "")
    (h : orchestrate_enhancement u p mode = .ok r) :
    r.enhancement_ratio_q =
      round1 ((pyLen r.enhanced_prompt : ℚ) / (pyLen p : ℚ)) := by
  unfold orchestrate_enhancement at h
  cases hcls : parse_intent_json (Runner.run u.classifierApi).final_output with
  | error e =>
    rw [hcls] at h
    cases h
  | ok c0 =>
    rw [hcls] at h
    change orchRoute u p mode (routeMode mode c0) = .ok r at h
    cases hr : routeMode mode c0 with
    | greetingRoute c =>
      rw [hr] at h
      simp only [orchRoute] at h
      injection h with h'
      subst h'
      exact congrArg round1 (qdiv_natCast _ _)
    | clarificationRoute c =>
      rw [hr] at h
      simp only [orchRoute] at h
      injection h with h'
      subst h'
      exact congrArg round1 (qdiv_natCast _ _)
    | pipeline c =>
      rw [hr] at h
      simp only [orchRoute] at h
      by_cases hb : c.suggested_action = "basic_enhancement"
      · rw [if_pos hb] at h
        injection h with h'
        subst h'
        exact congrArg round1 (qdiv_natCast _ _)
      · rw [if_neg hb] at h
        by_cases ht : (enhanced_safety_guardrail (Runner.run u.safetyApi).final_output
            p).tripwire = true
        · rw [if_pos ht] at h
          cases h
        · rw [if_neg ht] at h
          injection h with h'
          subst h'
          exact congrArg round1 (qdiv_natCast _ _)

/-- C9 witness: the amended theorem applied to the concrete run of `u9`
(ratio `2.3` for lengths 7 and 3). -/
theorem c9_witness :
    ("abc" : String) ≠ "" ∧
    (orchestrate_enhancement u9 "abc" "multi").map
      (fun (r : OrchResult) => r.enhancement_ratio_q) = .ok (mkRat 23 10) ∧
    ∀ r, orchestrate_enhancement u9 "abc" "multi" = .ok r →
      r.enhancement_ratio_q = round1 ((pyLen r.enhanced_prompt : ℚ) / (pyLen "abc" : ℚ)) := by
  refine ⟨by decide, rfl, ?_⟩
  intro r hr
  exact c9_ratio_rounded u9 "abc" "multi" r (by decide) hr

/- ----------------------------------------------------------------- -/
/- C10: JSON extraction round-trip.                                   -/
/- ----------------------------------------------------------------- -/

theorem idxOf?_eq_none (c : Char) (l : List Char) (h : c ∉ l) : idxOf? c l = none := by
  induction l with
  | nil => rfl
  | cons x xs ih =>
    have hx : ¬ (x = c) := by
      intro hx
      exact h (by simp [hx])
    unfold idxOf?
    rw [if_neg hx, ih (fun hm => h (List.mem_cons_of_mem x hm))]
    rfl

theorem idxOf?_append (c : Char) (l1 l2 : List Char) :
    idxOf? c (l1 ++ l2) =
      match idxOf? c l1 with
      | some i => some i
      | none => (idxOf? c l2).map (· + l1.length) := by
  induction l1 with
  | nil =>
    cases h2 : idxOf? c l2 <;> simp [idxOf?, h2]
  | cons x xs ih =>
    simp only [List.cons_append, idxOf?]
    by_cases hx : x = c
    · simp [hx]
    · simp only [List.append_eq]
      rw [if_neg hx, if_neg hx, ih]
      cases h1 : idxOf? c xs
      · cases h2 : idxOf? c l2 <;>
          simp [List.length_cons] <;> omega
      · simp

theorem idxOf?_sandwich (p o s : List Char)
    (hhead : o.head? = some braceOpen) (hp : braceOpen ∉ p) :
    idxOf? braceOpen (p ++ o ++ s) = some p.length := by
  rw [List.append_assoc, idxOf?_append, idxOf?_eq_none _ _ hp]
  obtain ⟨t, ht⟩ : ∃ t, o = braceOpen :: t := by
    cases o with
    | nil => cases hhead
    | cons a t => exact ⟨t, by injection hhead with h; rw [h]⟩
  rw [ht]
  simp [idxOf?]

theorem lastIdxOf?_sandwich (p o s : List Char)
    (hlast : o.getLast? = some braceClose) (hs : braceClose ∉ s) :
    lastIdxOf? braceClose (p ++ o ++ s) = some (p.length + o.length - 1) := by
  have holen : 1 ≤ o.length := by
    cases o with
    | nil => cases hlast
    | cons a t => simp
  unfold lastIdxOf?
  have hrev : (p ++ o ++ s).reverse = s.reverse ++ (o.reverse ++ p.reverse) := by
    simp [List.reverse_append]
  rw [hrev, idxOf?_append, idxOf?_eq_none _ _ (by simpa using hs)]
  obtain ⟨t, ht⟩ : ∃ t, o.reverse = braceClose :: t := by
    have hh : o.reverse.head? = some braceClose := by
      rw [List.head?_reverse]; exact hlast
    cases ho : o.reverse with
    | nil => rw [ho] at hh; cases hh
    | cons a t => rw [ho] at hh; exact ⟨t, by injection hh with h; rw [h]⟩
  rw [ht]
  have hL : (p ++ o ++ s).length = p.length + o.length + s.length := by
    simp [Nat.add_assoc]
  simp [idxOf?, hL]
  omega

/-- C10 (counterexample): the round-trip claim fails for an object embedded
in prose that contains a stray `\x7d` after the object.  The full text does
not parse, method 2 slices from the first `\x7b` to the *last* `\x7d` —
which includes the stray brace — and fails, and no line is a complete
object, so the extractor recovers nothing at all, even though the embedded
object on its own parses fine. -/
theorem c10_counterexample :
    recoverJson (("\x7b\"a\": 1\x7d" ++ " \x7d").toList) = none ∧
    jsonParseL ("\x7b\"a\": 1\x7d".toList) = some (.obj [("a", Json.num 1)]) := by
  exact ⟨rfl, rfl⟩

/-- C10 (corrected): the extractor recovers an embedded JSON object `o`
(parsing to `.obj d`) from surrounding prose `p ++ o ++ s` provided the
prose before it contains no `\x7b` and the prose after it contains no
`\x7d`; when the full text itself is not valid JSON, method 2's
first-`\x7b`-to-last-`\x7d` slice is then exactly `o` and the original
object is returned. -/
theorem c10_recovery_no_stray_braces (p o s : List Char) (d : List (String × Json))
    (hobj : jsonParseL o = some (.obj d))
    (hhead : o.head? = some braceOpen)
    (hlast : o.getLast? = some braceClose)
    (hp : braceOpen ∉ p)
    (hs : braceClose ∉ s)
    (hfull : jsonParseL (p ++ o ++ s) = none) :
    recoverJson (p ++ o ++ s) = some (.obj d) := by
  have holen : 1 ≤ o.length := by
    cases o with
    | nil => cases hhead
    | cons a t => simp
  have hm2 : method2 (p ++ o ++ s) = some (.obj d) := by
    unfold method2
    rw [idxOf?_sandwich p o s hhead hp, lastIdxOf?_sandwich p o s hlast hs]
    change (if p.length ≤ p.length + o.length - 1 then
        jsonParseL (List.take (p.length + o.length - 1 + 1 - p.length)
          (List.drop p.length (p ++ o ++ s))) else none) = some (.obj d)
    rw [if_pos (show p.length ≤ p.length + o.length - 1 by omega)]
    have hdrop : (p ++ o ++ s).drop p.length = o ++ s := by
      rw [List.append_assoc, List.drop_left]
    have hlen : p.length + o.length - 1 + 1 - p.length = o.length := by omega
    rw [hdrop, hlen, List.take_left, hobj]
  unfold recoverJson
  rw [hfull, hm2]
  rfl

/-- C10 (witness): the corrected theorem at a concrete input — the object
`\x7b"a": 1\x7d` inside a chatty model reply. -/
theorem c10_witness :
    recoverJson ("Sure! Here is the JSON you asked for: \x7b\"a\": 1\x7d - regards".toList)
      = some (.obj [("a", Json.num 1)]) := by
  have h := c10_recovery_no_stray_braces
    "Sure! Here is the JSON you asked for: ".toList
    "\x7b\"a\": 1\x7d".toList
    " - regards".toList
    [("a", Json.num 1)]
    rfl rfl rfl (by decide) (by decide) rfl
  exact h
